import Mathlib

/-!
Verification development for the mavbridge start-up shell (`mavbridge.py`).

The Python source is shallowly embedded: handlers that perform wire I/O
return the list of wire commands they issue, fallible code returns
`Except`, and the behaviour of the external `MAVLinkBridge.run_loop`
and of module imports is supplied as an oracle argument.
-/

/-- A Python exception, modelled by its message string. -/
abbrev PyErr := String

/-- A dynamically typed Python value: `args.baudrate` starts out as an
int (from argparse `type=int`) and may be replaced by a string by the
comma-split shorthand. -/
inductive PyVal where
  | int (n : Int)
  | str (s : String)
  deriving DecidableEq

/-- Python `s.split(sep)` for a one-character separator, over char lists:
splits at every occurrence of `sep`, keeping empty groups. -/
def pySplit (sep : Char) : List Char → List (List Char)
  | [] => [[]]
  | c :: cs =>
    if c = sep then [] :: pySplit sep cs
    else
      match pySplit sep cs with
      | [] => [[c]]
      | g :: gs => (c :: g) :: gs

/-- mavbridge.py lines 172-177, the special device cases: when a device
was given, is truthy (non-empty) and has no colon (not a network
connection), a comma makes it a `device,baudrate` pair via
`args.device.split(",")` unpacked into two variables; unpacking a split
of any other length raises a `ValueError`. The result is the final
(device, baudrate) pair handed to the bridge constructor. -/
def parseDeviceArgs (device : Option String) (baudrate : Int) :
    Except PyErr (Option String × PyVal) :=
  match device with
  | none => Except.ok (none, PyVal.int baudrate)
  | some d =>
    if d.data = [] ∨ d.data.contains ':' = true then
      Except.ok (some d, PyVal.int baudrate)
    else if d.data.contains ',' = true then
      match pySplit ',' d.data with
      | [dev, baud] => Except.ok (some (String.mk dev), PyVal.str (String.mk baud))
      | _ => Except.error "ValueError: unpacking device,baudrate failed"
    else
      Except.ok (some d, PyVal.int baudrate)

/-- C2: the device spec "COM3,115200" parses to device "COM3" with the
baud 115200 taken from the spec (overriding any separately supplied
baud), while any spec containing a colon is passed through unchanged
with the separately supplied baud, regardless of commas. -/
theorem device_spec_comma_and_colon (b : Int) (d : String)
    (hc : d.data.contains ':' = true) :
    parseDeviceArgs (some "COM3,115200") b =
      Except.ok (some "COM3", PyVal.str "115200") ∧
    parseDeviceArgs (some d) b = Except.ok (some d, PyVal.int b) := by
  constructor
  · rfl
  · simp only [parseDeviceArgs]
    rw [if_pos (Or.inr hc)]

/-- Witness for C2 at baud 57600 and the network spec "udp:127.0.0.1:14550". -/
theorem device_spec_comma_and_colon_witness :
    ("udp:127.0.0.1:14550").data.contains ':' = true ∧
    (parseDeviceArgs (some "COM3,115200") 57600 =
        Except.ok (some "COM3", PyVal.str "115200") ∧
      parseDeviceArgs (some "udp:127.0.0.1:14550") 57600 =
        Except.ok (some "udp:127.0.0.1:14550", PyVal.int 57600)) :=
  ⟨by decide, device_spec_comma_and_colon 57600 "udp:127.0.0.1:14550" (by decide)⟩

/-- The wire commands the standard subscriber handlers can make the
master connection issue. -/
inductive WireCmd where
  | arm
  | disarm
  | setMode (mode : Nat)
  | missionItem (lat lon alt : ℚ)
  | setCurrentWaypoint (seq : Nat)
  deriving DecidableEq

/-- mavbridge.py `sub_arm_throttle`: a True `.data` arms the throttle, a
False one disarms it. -/
def sub_arm_throttle (data : Bool) : List WireCmd :=
  if data then [WireCmd.arm] else [WireCmd.disarm]

/-- mavbridge.py `sub_change_mode`: look the `.data` mode string up in
the master mode_mapping; on a hit issue `set_mode` with the mapped
number, otherwise raise an exception (issuing nothing). -/
def sub_change_mode (mode_mapping : String → Option Nat) (data : String) :
    Except PyErr (List WireCmd) :=
  match mode_mapping data with
  | some n => Except.ok [WireCmd.setMode n]
  | none => Except.error ("invalid mode " ++ data)

/-- The wire commands actually issued by a fallible handler run: none
when it raised. -/
def issuedCmds : Except PyErr (List WireCmd) → List WireCmd
  | Except.ok cs => cs
  | Except.error _ => []

/-- C7: the arm handler issues the arm command iff `.data` is true and
the disarm command iff it is false, and issues exactly one command. -/
theorem arm_throttle_exactly_one (data : Bool) :
    (WireCmd.arm ∈ sub_arm_throttle data ↔ data = true) ∧
    (WireCmd.disarm ∈ sub_arm_throttle data ↔ data = false) ∧
    (sub_arm_throttle data).length = 1 := by
  cases data <;> simp [sub_arm_throttle]

/-- C3: an unrecognized mode string makes the mode handler raise the
configuration error and issue no set-mode command; a recognized mode
string makes it issue exactly the mapped set-mode command. -/
theorem change_mode_config_error (mode_mapping : String → Option Nat)
    (data : String) :
    (mode_mapping data = none →
      sub_change_mode mode_mapping data =
          Except.error ("invalid mode " ++ data) ∧
        issuedCmds (sub_change_mode mode_mapping data) = []) ∧
    (∀ n, mode_mapping data = some n →
      sub_change_mode mode_mapping data = Except.ok [WireCmd.setMode n]) := by
  constructor
  · intro h
    simp [sub_change_mode, h, issuedCmds]
  · intro n h
    simp [sub_change_mode, h]

/-- A small concrete mode mapping used to witness C3. -/
def sampleModeMap : String → Option Nat :=
  fun s => if s = "AUTO" then some 10 else if s = "GUIDED" then some 15 else none

/-- Witness for C3 on the sample mode mapping: mode "FLY" is rejected
with no command, mode "AUTO" maps to set_mode 10. -/
theorem change_mode_config_error_witness :
    (sampleModeMap "FLY" = none ∧ sampleModeMap "AUTO" = some 10) ∧
    ((sub_change_mode sampleModeMap "FLY" =
          Except.error ("invalid mode " ++ "FLY") ∧
        issuedCmds (sub_change_mode sampleModeMap "FLY") = []) ∧
      sub_change_mode sampleModeMap "AUTO" = Except.ok [WireCmd.setMode 10]) :=
  ⟨⟨by decide, by decide⟩,
    (change_mode_config_error sampleModeMap "FLY").1 (by decide),
    (change_mode_config_error sampleModeMap "AUTO").2 10 (by decide)⟩

/-- The outcome of one invocation of `bridge.run_loop()`: either it
returns normally (explicit external shutdown) or it raises. -/
inductive RunLoopOutcome where
  | returns
  | raises (ex : PyErr)
  deriving DecidableEq

/-- Whether the start-up loop is still running or was left normally. -/
inductive LoopStatus where
  | running
  | exitedNormally
  deriving DecidableEq

/-- Observable trace of the start-up loop: how often `run_loop` was
invoked, what was printed, and whether the loop was left. -/
structure LoopTrace where
  invocations : Nat
  logs : List String
  status : LoopStatus
  deriving DecidableEq

/-- The fixed message printed by the bare except clause of the start-up
loop. -/
def restartMsg : String := "... unhandled MAVLinkBridge error, restarting loop ..."

/-- mavbridge.py lines 233-239: `while True: try: bridge.run_loop();
break; except: print restartMsg`. The list gives the successive
behaviours of `run_loop`; when it is exhausted the loop is still
running. -/
def mainLoop : List RunLoopOutcome → LoopTrace
  | [] => { invocations := 0, logs := [], status := LoopStatus.running }
  | RunLoopOutcome.returns :: _ =>
      { invocations := 1, logs := [], status := LoopStatus.exitedNormally }
  | RunLoopOutcome.raises _ :: rest =>
      let t := mainLoop rest
      { invocations := t.invocations + 1
        logs := restartMsg :: t.logs
        status := t.status }

/-- The number of raising invocations before the first normal return
(all of them when no invocation returns normally). -/
def raisedBeforeReturn : List RunLoopOutcome → Nat
  | [] => 0
  | RunLoopOutcome.returns :: _ => 0
  | RunLoopOutcome.raises _ :: rest => raisedBeforeReturn rest + 1

/-- C1: the start-up loop leaves only when `run_loop` returns normally;
every exception escaping `run_loop` is caught, prints exactly one
restart message, and leads to a fresh re-invocation of `run_loop`. -/
theorem run_loop_supervision (outcomes : List RunLoopOutcome) :
    ((mainLoop outcomes).status = LoopStatus.exitedNormally ↔
      RunLoopOutcome.returns ∈ outcomes) ∧
    (mainLoop outcomes).logs =
      List.replicate (raisedBeforeReturn outcomes) restartMsg ∧
    (mainLoop outcomes).invocations =
      raisedBeforeReturn outcomes +
        (if RunLoopOutcome.returns ∈ outcomes then 1 else 0) := by
  induction outcomes with
  | nil => simp [mainLoop, raisedBeforeReturn]
  | cons o rest ih =>
    cases o with
    | returns => simp [mainLoop, raisedBeforeReturn]
    | raises ex =>
      refine ⟨?_, ?_, ?_⟩
      · simp only [mainLoop, List.mem_cons]
        rw [ih.1]
        simp
      · simp only [mainLoop, raisedBeforeReturn, List.replicate_succ]
        rw [ih.2.1]
      · simp only [mainLoop, raisedBeforeReturn, List.mem_cons]
        rw [ih.2.2]
        simp
        omega


/-- Fields of a decoded GLOBAL_POSITION_INT wire message: fixed-point
integers as delivered by the external codec (degrees times 1e7,
millimeters, centimeters per second). -/
structure GlobalPositionInt where
  lat : Int
  lon : Int
  alt : Int
  relative_alt : Int
  vx : Int
  vy : Int
  vz : Int
  deriving DecidableEq

/-- The status part of a ROS NavSatFix message. -/
structure NavSatStatusData where
  status : Int
  service : Int
  deriving DecidableEq

/-- ROS sensor_msgs NavSatStatus constant. -/
def NavSatStatus.STATUS_FIX : Int := 0

/-- ROS sensor_msgs NavSatStatus constant. -/
def NavSatStatus.SERVICE_GPS : Int := 1

/-- ROS sensor_msgs NavSatFix constant. -/
def NavSatFix.COVARIANCE_TYPE_UNKNOWN : Int := 0

/-- The fields of a ROS NavSatFix message that `pub_gps` sets. Float
arithmetic is modelled exactly over the rationals. -/
structure NavSatFixMsg where
  stamp : ℚ
  frame_id : String
  latitude : ℚ
  longitude : ℚ
  altitude : ℚ
  status : NavSatStatusData
  position_covariance_type : Int
  deriving DecidableEq

/-- mavbridge.py `pub_gps`: publish GLOBAL_POSITION_INT as a NavSatFix,
dividing lat and lon by 1e07 and the MSL altitude by 1e03, with a fixed
status and covariance type. `project_ap_time` is the bridge clock
projection, taken as an oracle. -/
def pub_gps (project_ap_time : GlobalPositionInt → ℚ)
    (msg : GlobalPositionInt) : NavSatFixMsg :=
  { stamp := project_ap_time msg
    frame_id := "base_footprint"
    latitude := (msg.lat : ℚ) / 10 ^ 7
    longitude := (msg.lon : ℚ) / 10 ^ 7
    altitude := (msg.alt : ℚ) / 10 ^ 3
    status := { status := NavSatStatus.STATUS_FIX
                service := NavSatStatus.SERVICE_GPS }
    position_covariance_type := NavSatFix.COVARIANCE_TYPE_UNKNOWN }

/-- A three-component vector of rationals. -/
structure Vec3 where
  x : ℚ
  y : ℚ
  z : ℚ
  deriving DecidableEq

/-- A quaternion message with rational components. -/
structure QuatMsg where
  x : ℚ
  y : ℚ
  z : ℚ
  w : ℚ
  deriving DecidableEq

/-- The fields of a ROS Odometry message that `pub_gps_odom` sets. -/
structure OdometryMsg where
  stamp : ℚ
  frame_id : String
  position : Vec3
  orientation : QuatMsg
  pose_covariance : List ℚ
  linear : Vec3
  twist_covariance : List ℚ
  deriving DecidableEq

/-- The 6x6 row-major covariance tuple hard-coded in `pub_gps_odom`
(suggested by the robot_pose_ekf docs). -/
def ekfCovariance : List ℚ :=
  [1/10, 0, 0, 0, 0, 0,
   0, 1/10, 0, 0, 0, 0,
   0, 0, 1/10, 0, 0, 0,
   0, 0, 0, 99999, 0, 0,
   0, 0, 0, 0, 99999, 0,
   0, 0, 0, 0, 0, 99999]

/-- mavbridge.py `pub_gps_odom`: publish GLOBAL_POSITION_INT as an
Odometry message, with position from lat, lon (divided by 1e07) and the
relative altitude (divided by 1e03), the hard-coded orientation
quaternion, linear velocities divided by 1e02, and the hard-coded
covariance for pose and twist alike. -/
def pub_gps_odom (project_ap_time : GlobalPositionInt → ℚ)
    (msg : GlobalPositionInt) : OdometryMsg :=
  { stamp := project_ap_time msg
    frame_id := "base_footprint"
    position := { x := (msg.lat : ℚ) / 10 ^ 7
                  y := (msg.lon : ℚ) / 10 ^ 7
                  z := (msg.relative_alt : ℚ) / 10 ^ 3 }
    orientation := { x := 1, y := 0, z := 0, w := 0 }
    pose_covariance := ekfCovariance
    linear := { x := (msg.vx : ℚ) / 10 ^ 2
                y := (msg.vy : ℚ) / 10 ^ 2
                z := (msg.vz : ℚ) / 10 ^ 2 }
    twist_covariance := ekfCovariance }

/-- C6: for every decoded absolute-position message, the geodetic-fix
publisher scales lat and lon by 1e-7 and altitude by 1e-3, and the
odometry publisher sets position from lat, lon, relative_alt and linear
velocities from vx, vy, vz scaled by 1e-2. -/
theorem gps_fixed_point_scaling (project_ap_time : GlobalPositionInt → ℚ)
    (msg : GlobalPositionInt) :
    (pub_gps project_ap_time msg).latitude = (msg.lat : ℚ) / 10 ^ 7 ∧
    (pub_gps project_ap_time msg).longitude = (msg.lon : ℚ) / 10 ^ 7 ∧
    (pub_gps project_ap_time msg).altitude = (msg.alt : ℚ) / 10 ^ 3 ∧
    (pub_gps_odom project_ap_time msg).position.x = (msg.lat : ℚ) / 10 ^ 7 ∧
    (pub_gps_odom project_ap_time msg).position.y = (msg.lon : ℚ) / 10 ^ 7 ∧
    (pub_gps_odom project_ap_time msg).position.z =
      (msg.relative_alt : ℚ) / 10 ^ 3 ∧
    (pub_gps_odom project_ap_time msg).linear.x = (msg.vx : ℚ) / 10 ^ 2 ∧
    (pub_gps_odom project_ap_time msg).linear.y = (msg.vy : ℚ) / 10 ^ 2 ∧
    (pub_gps_odom project_ap_time msg).linear.z = (msg.vz : ℚ) / 10 ^ 2 :=
  ⟨rfl, rfl, rfl, rfl, rfl, rfl, rfl, rfl, rfl⟩

/-- C9: every NavSatFix published by `pub_gps` carries status
STATUS_FIX, service SERVICE_GPS and covariance type
COVARIANCE_TYPE_UNKNOWN, whatever the input message holds. -/
theorem gps_fix_constant_status (project_ap_time : GlobalPositionInt → ℚ)
    (msg : GlobalPositionInt) :
    (pub_gps project_ap_time msg).status.status = NavSatStatus.STATUS_FIX ∧
    (pub_gps project_ap_time msg).status.service = NavSatStatus.SERVICE_GPS ∧
    (pub_gps project_ap_time msg).position_covariance_type =
      NavSatFix.COVARIANCE_TYPE_UNKNOWN :=
  ⟨rfl, rfl, rfl⟩

/-- C10: every Odometry message published by `pub_gps_odom` carries the
constant orientation quaternion (1, 0, 0, 0) and the same hard-coded
covariance matrix for pose and twist, whatever the input message holds. -/
theorem gps_odom_constant_orientation (project_ap_time : GlobalPositionInt → ℚ)
    (msg : GlobalPositionInt) :
    (pub_gps_odom project_ap_time msg).orientation =
      { x := 1, y := 0, z := 0, w := 0 } ∧
    (pub_gps_odom project_ap_time msg).pose_covariance = ekfCovariance ∧
    (pub_gps_odom project_ap_time msg).twist_covariance =
      (pub_gps_odom project_ap_time msg).pose_covariance :=
  ⟨rfl, rfl, rfl⟩

/-- The observable result of the whole start-up sequence: either the
process exited with a code after printing some lines, or it entered the
supervised loop. -/
inductive StartResult where
  | exited (code : Int) (printed : List String)
  | looped (trace : LoopTrace)
  deriving DecidableEq

/-- mavbridge.py lines 188-239: construct the bridge (its constructor
may raise); on an exception print its message and `sys.exit(-1)` with no
retry, otherwise register the standard handlers and enter the supervised
start-up loop, whose `run_loop` behaviours are given by `outcomes`. -/
def mainProgram (ctor : Except PyErr Unit)
    (outcomes : List RunLoopOutcome) : StartResult :=
  match ctor with
  | Except.error ex => StartResult.exited (-1) [ex]
  | Except.ok _ => StartResult.looped (mainLoop outcomes)

/-- C8: whenever the bridge constructor raises, the program prints the
error and exits with status -1; the supervised loop (and hence any
reconnect or retry) is never entered. -/
theorem constructor_failure_exits (ex : PyErr)
    (outcomes : List RunLoopOutcome) :
    mainProgram (Except.error ex) outcomes = StartResult.exited (-1) [ex] ∧
    ∀ trace, mainProgram (Except.error ex) outcomes ≠ StartResult.looped trace :=
  ⟨rfl, fun _ h => StartResult.noConfusion h⟩


/-- Modelled from the spec: `MAVLinkBridge.get_module` lives in
MAVLinkBridge.py, which is not under src/. Per section 4.5 of the spec,
`get_module(name)` returns the loaded module or none, looked up by
module name in the bridge registry of uniquely named modules. Module
objects are modelled as opaque string tags. -/
def get_module (registry : List (String × String)) (name : String) :
    Option String :=
  (registry.find? (fun p => p.fst == name)).map Prod.snd

/-- Modelled from the spec: `MAVLinkBridge.add_module` lives in
MAVLinkBridge.py, which is not under src/. Per section 4.5 of the spec
it invokes the registration entrypoint of the module object with the
capability-scoped bridge handle — entrypoint execution can itself fail,
which raises out of `add_module` — and on success records the resulting
module under the supplied name; module names are unique, so an entry of
the same name is replaced. The entrypoint behaviour is supplied by the
oracle `entry`, mapping the module object to the registered module value
or to the exception it raises. -/
def add_module (entry : String → Except PyErr String)
    (registry : List (String × String)) (name : String)
    (obj : String) : Except PyErr (List (String × String)) :=
  match entry obj with
  | Except.ok inst =>
      Except.ok ((registry.filter (fun p => !(p.fst == name))) ++ [(name, inst)])
  | Except.error ex => Except.error ex

/-- State threaded through the module-registration loop: the bridge
module registry and the lines printed so far. -/
structure LoadState where
  registry : List (String × String)
  logs : List String
  deriving DecidableEq

/-- One iteration of the module-registration loop (mavbridge.py lines
213-229): compute `m_name = "mavbridge_" ++ m`; when `get_module m_name`
finds a module, print the already-loaded diagnostic and continue;
otherwise run the fallible import machinery (`__import__`, attribute
walk, `reload`), modelled by the oracle `imp`, then register the object
via `add_module m`, whose registration entrypoint (oracle `entry`) can
also raise. Any exception from the try block — import or entrypoint —
is caught and printed for this module only, and the success line after
`add_module` is then skipped. -/
def loadModule (imp entry : String → Except PyErr String) (st : LoadState)
    (m : String) : LoadState :=
  match get_module st.registry ("mavbridge_" ++ m) with
  | some _ =>
      { st with logs :=
          st.logs ++ ["Module " ++ ("mavbridge_" ++ m) ++ " already loaded"] }
  | none =>
    match imp ("mavbridge_" ++ m) with
    | Except.ok obj =>
      match add_module entry st.registry m obj with
      | Except.ok reg2 =>
          { registry := reg2
            logs := st.logs ++
              ["Module " ++ ("mavbridge_" ++ m) ++ " loaded successfully"] }
      | Except.error ex =>
          { st with logs := st.logs ++
              ["Failed to load module " ++ ("mavbridge_" ++ m) ++ ": " ++ ex] }
    | Except.error ex =>
        { st with logs := st.logs ++
            ["Failed to load module " ++ ("mavbridge_" ++ m) ++ ": " ++ ex] }

/-- The whole module-registration loop over the requested module names,
starting from an empty registry. -/
def loadModules (imp entry : String → Except PyErr String)
    (mods : List String) : LoadState :=
  mods.foldl (loadModule imp entry) { registry := [], logs := [] }

/-- Each loop iteration prints exactly one line, whatever happens. -/
theorem loadModule_logs_length (imp entry : String → Except PyErr String)
    (st : LoadState) (m : String) :
    (loadModule imp entry st m).logs.length = st.logs.length + 1 := by
  unfold loadModule
  split
  · simp
  · split
    · split <;> simp
    · simp

/-- The registration loop processes its whole input list: one printed
line per requested module, from any starting state. -/
theorem loadModules_go_length (imp entry : String → Except PyErr String)
    (mods : List String) (st : LoadState) :
    (mods.foldl (loadModule imp entry) st).logs.length =
      st.logs.length + mods.length := by
  induction mods generalizing st with
  | nil => simp
  | cons m rest ih =>
    simp only [List.foldl_cons, List.length_cons, ih, loadModule_logs_length]
    omega

/-- C5: a module whose import machinery raises, and likewise a module
whose registration entrypoint raises inside `add_module`, is logged for
that module with the registry untouched, and the loop still attempts
every requested module (one log line per module, so later modules are
not skipped and start-up is not aborted). -/
theorem module_load_failure_isolated (imp entry : String → Except PyErr String)
    (mods : List String) :
    (loadModules imp entry mods).logs.length = mods.length ∧
    (∀ st m ex, get_module st.registry ("mavbridge_" ++ m) = none →
      imp ("mavbridge_" ++ m) = Except.error ex →
      loadModule imp entry st m =
        { registry := st.registry
          logs := st.logs ++
            ["Failed to load module " ++ ("mavbridge_" ++ m) ++ ": " ++ ex] }) ∧
    (∀ st m obj ex, get_module st.registry ("mavbridge_" ++ m) = none →
      imp ("mavbridge_" ++ m) = Except.ok obj →
      entry obj = Except.error ex →
      loadModule imp entry st m =
        { registry := st.registry
          logs := st.logs ++
            ["Failed to load module " ++ ("mavbridge_" ++ m) ++ ": " ++ ex] }) := by
  refine ⟨?_, ?_, ?_⟩
  · have h := loadModules_go_length imp entry mods { registry := [], logs := [] }
    simpa [loadModules] using h
  · intro st m ex hget himp
    unfold loadModule
    rw [hget, himp]
  · intro st m obj ex hget himp hentry
    simp only [loadModule, add_module, hget, himp, hentry]

/-- An import oracle that fails for mavbridge_bad and succeeds
otherwise, used to witness C5. -/
def flakyImport : String → Except PyErr String :=
  fun n => if n = "mavbridge_bad" then Except.error "boom" else Except.ok n

/-- A registration-entrypoint oracle that raises for the object imported
as mavbridge_ugly and succeeds otherwise, used to witness C5. -/
def flakyEntry : String → Except PyErr String :=
  fun obj =>
    if obj = "mavbridge_ugly" then Except.error "init crashed"
    else Except.ok obj

/-- Witness for C5: with the flaky oracles, loading bad, ugly and good
prints one line per module, the failing import leaves the registry
untouched while logging the failure, and so does the failing
registration entrypoint. -/
theorem module_load_failure_isolated_witness :
    (get_module [] ("mavbridge_" ++ "bad") = none ∧
      flakyImport ("mavbridge_" ++ "bad") = Except.error "boom" ∧
      flakyImport ("mavbridge_" ++ "ugly") = Except.ok "mavbridge_ugly" ∧
      flakyEntry "mavbridge_ugly" = Except.error "init crashed") ∧
    (loadModules flakyImport flakyEntry ["bad", "ugly", "good"]).logs.length = 3 ∧
    loadModule flakyImport flakyEntry { registry := [], logs := [] } "bad" =
      { registry := []
        logs := ["Failed to load module " ++ ("mavbridge_" ++ "bad") ++
          ": " ++ "boom"] } ∧
    loadModule flakyImport flakyEntry { registry := [], logs := [] } "ugly" =
      { registry := []
        logs := ["Failed to load module " ++ ("mavbridge_" ++ "ugly") ++
          ": " ++ "init crashed"] } :=
  ⟨⟨by decide, by rfl, by rfl, by rfl⟩,
    (module_load_failure_isolated flakyImport flakyEntry
      ["bad", "ugly", "good"]).1,
    (module_load_failure_isolated flakyImport flakyEntry
      ["bad", "ugly", "good"]).2.1
      { registry := [], logs := [] } "bad" "boom" (by decide) (by rfl),
    (module_load_failure_isolated flakyImport flakyEntry
      ["bad", "ugly", "good"]).2.2
      { registry := [], logs := [] } "ugly" "mavbridge_ugly" "init crashed"
      (by decide) (by rfl) (by rfl)⟩

/-- C4 counter-evaluation: requesting module foo twice with cleanly
succeeding import and entrypoint oracles. The loop checks
`get_module "mavbridge_foo"` but `add_module` registered the module
under "foo", so the duplicate is never detected: the module is imported
and registered a second time, the success line is printed twice, and the
already-loaded diagnostic is never printed. -/
theorem duplicate_module_load_eval :
    (loadModules (fun n => Except.ok n) (fun obj => Except.ok obj)
        ["foo", "foo"]).logs =
      ["Module mavbridge_foo loaded successfully",
       "Module mavbridge_foo loaded successfully"] ∧
    "Module mavbridge_foo already loaded" ∉
      (loadModules (fun n => Except.ok n) (fun obj => Except.ok obj)
        ["foo", "foo"]).logs ∧
    (loadModules (fun n => Except.ok n) (fun obj => Except.ok obj)
        ["foo", "foo"]).registry =
      [("foo", "mavbridge_foo")] := by
  refine ⟨?_, ?_, ?_⟩ <;> decide
